import Mathlib

/-!
Verification of the Go cgo binding `judger.go` (package judger), a thin
wrapper around a C sandbox core (`C.run`).  Go machine integers are
modelled as `Int` together with explicit range predicates for each Go/C
integer type; a narrowing Go conversion such as `int32(x)` or `C.int(x)`
is two's-complement truncation, modelled by `wrap32`.  A C `char*` is
`Option String`: `none` is the NULL pointer, `some s` a pointer to the
C string with contents `s` (`C.CString` always returns a non-NULL
pointer, hence always `some`).
-/

/-- Range of Go `int32` / C `int` (32-bit signed). -/
def int32Range (x : Int) : Prop := -(2 ^ 31) ≤ x ∧ x < 2 ^ 31

/-- Range of Go `int` on linux/amd64 / C `long` (64-bit signed). -/
def int64Range (x : Int) : Prop := -(2 ^ 63) ≤ x ∧ x < 2 ^ 63

/-- Range of Go `uint32` / C `unsigned int`. -/
def uint32Range (x : Int) : Prop := 0 ≤ x ∧ x < 2 ^ 32

instance (x : Int) : Decidable (int32Range x) := by unfold int32Range; infer_instance

instance (x : Int) : Decidable (int64Range x) := by unfold int64Range; infer_instance

instance (x : Int) : Decidable (uint32Range x) := by unfold uint32Range; infer_instance

/-- Two's-complement truncation to 32 bits: the effect of a Go conversion
to `int32` (and of cgo's `C.int(...)`) on a wider signed value. -/
def wrap32 (x : Int) : Int := (x + 2 ^ 31) % 2 ^ 32 - 2 ^ 31

/-- `const ArgsMaxNumber = 256` from judger.go. -/
def ArgsMaxNumber : Nat := 256

/-- `const EnvMaxNumber = 256` from judger.go. -/
def EnvMaxNumber : Nat := 256

/-- Go struct `Config` from judger.go.  Field types follow the Go
declaration: `int` fields are 64-bit, `MaxMemory`, `MaxStack` and
`MaxOutputSize` are `int32`, `Uid`/`Gid` are `uint32`; the range
information is carried by `Config.WF`. -/
structure Config where
  MaxCPUTime : Int
  MaxRealTime : Int
  MaxMemory : Int
  MaxStack : Int
  MaxProcessNumber : Int
  MaxOutputSize : Int
  MemoryLimitCheckOnly : Int
  ExePath : String
  InputPath : String
  OutputPath : String
  ErrorPath : String
  Args : List String
  Env : List String
  LogPath : String
  SeccompRuleName : String
  Uid : Int
  Gid : Int

/-- Well-formedness of a `Config`: each field holds a value representable
in its Go type (`int` = 64-bit, `int32`, `uint32`).  Go's type system
guarantees this for every value a caller can construct. -/
def Config.WF (c : Config) : Prop :=
  int64Range c.MaxCPUTime ∧ int64Range c.MaxRealTime ∧
  int32Range c.MaxMemory ∧ int32Range c.MaxStack ∧
  int64Range c.MaxProcessNumber ∧ int32Range c.MaxOutputSize ∧
  int64Range c.MemoryLimitCheckOnly ∧
  uint32Range c.Uid ∧ uint32Range c.Gid

instance (c : Config) : Decidable c.WF := by unfold Config.WF; infer_instance

/-- The C `struct config` the binding fills (declared in the C core's
header; its integer field types are visible in judger.go through the cgo
conversions used: `C.int` for times and process number, `C.long` for the
three byte-sized limits, `C.uint` for uid/gid).  `args` and `env` are
fixed arrays of 256 `char*`, zero-initialized (all NULL) in Go. -/
structure CConfig where
  max_cpu_time : Int
  max_real_time : Int
  max_memory : Int
  max_stack : Int
  max_process_number : Int
  max_output_size : Int
  memory_limit_check_only : Int
  exe_path : Option String
  input_path : Option String
  output_path : Option String
  error_path : Option String
  args : Fin 256 → Option String
  env : Fin 256 → Option String
  log_path : Option String
  seccomp_rule_name : Option String
  uid : Int
  gid : Int

/-- Effect of the copy loop
`for i := 0; i < len(xs) && i < bound; i++ { arr[i] = C.CString(xs[i]) }`
on the zero-initialized (all-NULL) 256-slot array: slot `i` holds the
C string of `xs[i]` exactly when `i < len(xs)` and `i < bound`; every
other slot keeps the zero value NULL. -/
def fillSlots (xs : List String) (bound : Nat) : Fin 256 → Option String :=
  fun j => if h : j.val < xs.length ∧ j.val < bound then some (xs.get ⟨j.val, h.1⟩) else none

/-- `func (c Config) convertToCStruct() (cc C.struct_config)` from
judger.go, line for line: `C.int(...)` on a 64-bit Go `int` truncates
(`wrap32`); `C.long(...)` on an `int32` widens, preserving the value;
`C.CString` always produces a non-NULL pointer (`some`), also for the
empty string; the args/env loops stop at `ArgsMaxNumber-1` and
`EnvMaxNumber-1`. -/
def Config.convertToCStruct (c : Config) : CConfig where
  max_cpu_time := wrap32 c.MaxCPUTime
  max_real_time := wrap32 c.MaxRealTime
  max_memory := c.MaxMemory
  max_stack := c.MaxStack
  max_process_number := wrap32 c.MaxProcessNumber
  max_output_size := c.MaxOutputSize
  memory_limit_check_only := wrap32 c.MemoryLimitCheckOnly
  exe_path := some c.ExePath
  input_path := some c.InputPath
  output_path := some c.OutputPath
  error_path := some c.ErrorPath
  args := fillSlots c.Args (ArgsMaxNumber - 1)
  env := fillSlots c.Env (EnvMaxNumber - 1)
  log_path := some c.LogPath
  seccomp_rule_name := some c.SeccompRuleName
  uid := c.Uid
  gid := c.Gid

/-- The C `struct result` that `C.run` fills.  The first six integer
fields are C `int` (the binding reads them with the value-preserving
`int(...)`).  Modelled from the spec: `memory` is the peak memory in
bytes, compared by the engine against the `C.long`-typed memory ceiling
of the config, hence a 64-bit C `long` (the header is not under src/). -/
structure CResult where
  cpu_time : Int
  real_time : Int
  memory : Int
  signal : Int
  exit_code : Int
  error : Int
  result : Int

/-- Go struct `Result` from judger.go: all fields Go `int` except
`Memory`, which is `int32`.  The Go field `Result` is rendered as
`res` because a Lean structure field cannot repeat the structure
name; it is the Outcome code 0..5.  `Error` is the Fault code 0..-11. -/
structure Result where
  CPUTime : Int
  RealTime : Int
  Memory : Int
  Signal : Int
  ExitCode : Int
  res : Int
  Error : Int

/-- `func (r *Result) convertFromCStruct(cr C.struct_result)` from
judger.go: every field is copied with `int(...)` (widening, value
preserving) except `Memory`, copied with `int32(cr.memory)`, a
truncation of the 64-bit `memory` field. -/
def convertFromCStruct (cr : CResult) : Result where
  CPUTime := cr.cpu_time
  RealTime := cr.real_time
  Memory := wrap32 cr.memory
  Signal := cr.signal
  ExitCode := cr.exit_code
  res := cr.result
  Error := cr.error

/-- One of the two cleanup loops at the end of `Run`:
`for i := range cConfig.args { if i == 0 { break }; C.free(unsafe.Pointer(i)) }`.
The input is the list of indices `range` yields (0, 1, ..., 255); the
output is the list of addresses passed to `C.free` — note the body
frees `unsafe.Pointer(i)`, the integer index, not the array slot. -/
def freeLoop : List Nat → List Nat
  | [] => []
  | i :: rest => if i = 0 then [] else i :: freeLoop rest

/-- Addresses freed by the args cleanup loop of `Run`. -/
def runArgsFrees : List Nat := freeLoop (List.range 256)

/-- Addresses freed by the env cleanup loop of `Run`. -/
def runEnvFrees : List Nat := freeLoop (List.range 256)

/-- `func Run(config Config) (result Result)` from judger.go.  The
external `C.run(&cConfig, &cResult)` fills `cResult`; the binding never
inspects or alters it beyond `convertFromCStruct`.  `C.run` is outside
src/, so the filled struct is a parameter. -/
def Run (config : Config) (cResult : CResult) : Result :=
  let _cConfig := config.convertToCStruct
  convertFromCStruct cResult

/-- Outcome code SUCCESS. -/
def SUCCESS : Int := 0

/-- Outcome code CPU_TIME_LIMIT_EXCEEDED. -/
def CPU_TIME_LIMIT_EXCEEDED : Int := 1

/-- Outcome code REAL_TIME_LIMIT_EXCEEDED. -/
def REAL_TIME_LIMIT_EXCEEDED : Int := 2

/-- Outcome code MEMORY_LIMIT_EXCEEDED. -/
def MEMORY_LIMIT_EXCEEDED : Int := 3

/-- Outcome code RUNTIME_ERROR. -/
def RUNTIME_ERROR : Int := 4

/-- Outcome code SYSTEM_ERROR. -/
def SYSTEM_ERROR : Int := 5

/-- The sentinel disabling a numeric limit (judger.go doc: -1 for
unlimited). -/
def UNLIMITED : Int := -1

/-- Modelled from the spec: the raw termination data of one run as the
supervisor observes it — terminating signal (0 if none), exit code,
measured CPU time, wall time and peak memory, and the Fault code
(0 = None, negative = an engine fault).  The C core that produces it is
not under src/. -/
structure Termination where
  cpuTime : Int
  realTime : Int
  memory : Int
  signal : Int
  exitCode : Int
  fault : Int

/-- Modelled from the spec: the Result Classifier of the C core (spec
section 4.6 with the tie-break of section 4.1; the core is not under
src/).  `ambig` says which signals could be explained by either the
CPU-time or the memory enforcement.  Any Fault is SystemError; a
termination by an ambiguous signal is attributed to CPU time exactly
when measured CPU time is at or beyond the configured ceiling and to
memory otherwise; then the configured ceilings are compared post hoc;
a remaining signal or non-zero exit is RuntimeError; else Success. -/
def classify (ambig : Int → Bool) (cc : CConfig) (t : Termination) : Int :=
  if t.fault ≠ 0 then SYSTEM_ERROR
  else if t.signal ≠ 0 ∧ ambig t.signal then
    (if cc.max_cpu_time ≠ UNLIMITED ∧ cc.max_cpu_time ≤ t.cpuTime then CPU_TIME_LIMIT_EXCEEDED
     else MEMORY_LIMIT_EXCEEDED)
  else if cc.max_cpu_time ≠ UNLIMITED ∧ cc.max_cpu_time ≤ t.cpuTime then CPU_TIME_LIMIT_EXCEEDED
  else if cc.max_real_time ≠ UNLIMITED ∧ cc.max_real_time ≤ t.realTime then REAL_TIME_LIMIT_EXCEEDED
  else if cc.max_memory ≠ UNLIMITED ∧ cc.max_memory ≤ t.memory then MEMORY_LIMIT_EXCEEDED
  else if t.signal ≠ 0 ∨ t.exitCode ≠ 0 then RUNTIME_ERROR
  else SUCCESS

/-- Modelled from the spec: `C.run` fills the C result struct with the
measured usage, the raw termination data, the Fault code and the
classified Outcome (the core is not under src/). -/
def engineRun (ambig : Int → Bool) (cc : CConfig) (t : Termination) : CResult where
  cpu_time := t.cpuTime
  real_time := t.realTime
  memory := t.memory
  signal := t.signal
  exit_code := t.exitCode
  error := t.fault
  result := classify ambig cc t

/-- `Run` composed with the spec-modelled engine: what a call to `Run`
returns when the run terminates as `t` describes. -/
def RunWithEngine (ambig : Int → Bool) (config : Config) (t : Termination) : Result :=
  Run config (engineRun ambig config.convertToCStruct t)

/-- A minimal concrete config: every numeric limit `-1` (unlimited),
empty argument and environment lists, empty seccomp rule name. -/
def cfgBase : Config where
  MaxCPUTime := -1
  MaxRealTime := -1
  MaxMemory := -1
  MaxStack := -1
  MaxProcessNumber := -1
  MaxOutputSize := -1
  MemoryLimitCheckOnly := 1
  ExePath := "/bin/true"
  InputPath := "/dev/null"
  OutputPath := "/dev/null"
  ErrorPath := "/dev/null"
  Args := []
  Env := []
  LogPath := "judger.log"
  SeccompRuleName := ""
  Uid := 0
  Gid := 0

/-- `cfgBase` with 257 arguments, one more than the fixed array size. -/
def cfg257 : Config := { cfgBase with Args := List.replicate 257 "a" }

/-- `cfgBase` with a single argument. -/
def cfg1Arg : Config := { cfgBase with Args := ["a"] }

/-- `cfgBase` with a CPU-time limit one past the 32-bit range. -/
def cfgBigCPU : Config := { cfgBase with MaxCPUTime := 2 ^ 31 }

/-- A C result whose `memory` field (2^31 bytes = 2 GiB) does not fit in
`int32`. -/
def crBigMem : CResult where
  cpu_time := 10
  real_time := 20
  memory := 2 ^ 31
  signal := 0
  exit_code := 0
  error := 0
  result := 0

/-- A C result with small in-range values. -/
def crSmall : CResult where
  cpu_time := 10
  real_time := 20
  memory := 5
  signal := 0
  exit_code := 0
  error := 0
  result := 0

/-- A termination record of a clean exit: no signal, exit code 0, no
fault. -/
def tClean : Termination where
  cpuTime := 3
  realTime := 7
  memory := 4096
  signal := 0
  exitCode := 0
  fault := 0

/-- `cfgBase` with a CPU-time ceiling of 1000 ms. -/
def cfgCPULimited : Config := { cfgBase with MaxCPUTime := 1000 }

/-- A termination by signal 9 with measured CPU time past the 1000 ms
ceiling, no fault. -/
def tCPUKill : Termination where
  cpuTime := 1500
  realTime := 2000
  memory := 1000
  signal := 9
  exitCode := 0
  fault := 0

/-- Truncation to 32 bits is the identity on values already in the
32-bit signed range. -/
theorem wrap32_eq_of_int32Range (x : Int) (h : int32Range x) : wrap32 x = x := by
  unfold int32Range at h
  unfold wrap32
  omega

/-- Truncation of a 64-bit value to 32 bits lands in the 32-bit range. -/
theorem wrap32_int32Range (x : Int) : int32Range (wrap32 x) := by
  unfold int32Range wrap32
  constructor <;> omega

/-- A slot of the copy loop's array stays NULL when its index is at or
past the list length or at or past the loop bound. -/
theorem fillSlots_eq_none (xs : List String) (bound : Nat) (j : Fin 256)
    (h : xs.length ≤ j.val ∨ bound ≤ j.val) :
    fillSlots xs bound j = none := by
  unfold fillSlots
  rw [dif_neg]
  rintro ⟨h1, h2⟩
  omega

/-- C9: for every config the C args and env arrays produced by
`convertToCStruct` are NULL-terminated: slot 255 is never filled, and
every slot at or past `min (length) 255` remains the zero (NULL)
pointer of the zero-initialized struct. -/
theorem args_env_arrays_null_terminated (c : Config) :
    (c.convertToCStruct).args ⟨255, by omega⟩ = none ∧
    (c.convertToCStruct).env ⟨255, by omega⟩ = none ∧
    (∀ j : Fin 256, min c.Args.length 255 ≤ j.val → (c.convertToCStruct).args j = none) ∧
    (∀ j : Fin 256, min c.Env.length 255 ≤ j.val → (c.convertToCStruct).env j = none) := by
  refine ⟨?_, ?_, fun j hj => ?_, fun j hj => ?_⟩
  · exact fillSlots_eq_none _ _ _ (Or.inr (by simp [ArgsMaxNumber]))
  · exact fillSlots_eq_none _ _ _ (Or.inr (by simp [EnvMaxNumber]))
  · exact fillSlots_eq_none _ _ _ (by simp only [ArgsMaxNumber]; omega)
  · exact fillSlots_eq_none _ _ _ (by simp only [EnvMaxNumber]; omega)

/-- Witness for C9 at a concrete one-argument config: slot 255 and
slot 1 (the first slot past the single copied entry) are NULL. -/
theorem args_env_arrays_null_terminated_witness :
    (cfg1Arg.convertToCStruct).args ⟨255, by omega⟩ = none ∧
    (cfg1Arg.convertToCStruct).args ⟨1, by omega⟩ = none :=
  ⟨(args_env_arrays_null_terminated cfg1Arg).1,
   (args_env_arrays_null_terminated cfg1Arg).2.2.1 ⟨1, by omega⟩ (by decide)⟩

set_option maxRecDepth 8192 in
/-- C1 (failing input): a config with 257 arguments is silently
truncated by `convertToCStruct`: the conversion fills only slots
0..254 (slot 254 holds the 255th entry), slot 255 stays NULL, so the
256th and 257th entries are dropped, and no error is reported — the
conversion is total with no error channel. -/
theorem convert_drops_excess_args :
    cfg257.Args.length = 257 ∧
    (cfg257.convertToCStruct).args ⟨254, by omega⟩ = some "a" ∧
    (cfg257.convertToCStruct).args ⟨255, by omega⟩ = none := by
  refine ⟨by decide, by decide, by decide⟩

set_option maxRecDepth 8192 in
/-- C2 (failing input): for the one-argument config, `convertToCStruct`
allocates a C string in args slot 0, yet both cleanup loops in `Run`
execute zero `C.free` calls: each loop breaks at index 0 on its first
iteration. -/
theorem cleanup_loops_free_nothing :
    (cfg1Arg.convertToCStruct).args ⟨0, by omega⟩ = some "a" ∧
    runArgsFrees = [] ∧ runEnvFrees = [] := by
  refine ⟨by decide, by decide, by decide⟩

/-- C3 (failing input): for a config with an absent (empty) seccomp
rule name, `convertToCStruct` still calls `C.CString`, so the pointer
handed to `C.run` is a non-NULL pointer to the empty string, never
NULL. -/
theorem seccomp_name_never_null :
    cfgBase.SeccompRuleName = "" ∧
    (cfgBase.convertToCStruct).seccomp_rule_name = some "" ∧
    (cfgBase.convertToCStruct).seccomp_rule_name ≠ none := by
  refine ⟨by decide, by decide, by decide⟩

/-- C4 (counterexample): when the engine fills the C result's 64-bit
`memory` field with 2^31 bytes (a measurable 2 GiB peak), the binding's
`int32(cr.memory)` alters it: the returned `Memory` is -2^31, not 2^31. -/
theorem run_memory_field_altered :
    crBigMem.memory = 2 ^ 31 ∧ (Run cfgBase crBigMem).Memory = -(2 ^ 31) := by
  refine ⟨by decide, by decide⟩

/-- C4 (amended): `Run` returns the one result `convertFromCStruct`
builds from the C struct the engine filled: the six fields CPUTime,
RealTime, Signal, ExitCode, Result (`res`) and Error are copied
value-preservingly; Memory is the 64-bit `memory` field truncated to
32 bits, equal to the engine's value exactly when that value fits in
the 32-bit signed range. -/
theorem run_fields_from_engine_struct (config : Config) (cr : CResult) :
    Run config cr = convertFromCStruct cr ∧
    (Run config cr).CPUTime = cr.cpu_time ∧
    (Run config cr).RealTime = cr.real_time ∧
    (Run config cr).Signal = cr.signal ∧
    (Run config cr).ExitCode = cr.exit_code ∧
    (Run config cr).res = cr.result ∧
    (Run config cr).Error = cr.error ∧
    (Run config cr).Memory = wrap32 cr.memory ∧
    (int32Range cr.memory → (Run config cr).Memory = cr.memory) := by
  refine ⟨rfl, rfl, rfl, rfl, rfl, rfl, rfl, rfl, fun h => ?_⟩
  exact wrap32_eq_of_int32Range cr.memory h

/-- Witness for the amended C4 at a concrete in-range result. -/
theorem run_fields_from_engine_struct_witness :
    (Run cfgBase crSmall).Memory = crSmall.memory :=
  (run_fields_from_engine_struct cfgBase crSmall).2.2.2.2.2.2.2.2 (by decide)

/-- C5 (counterexample): `MaxCPUTime` is a 64-bit Go `int` but the C
config field is a 32-bit `C.int`, so the conversion is not value
preserving: the expressible limit 2^31 reaches the engine as -2^31. -/
theorem convert_cpu_limit_wrapped :
    cfgBigCPU.MaxCPUTime = 2 ^ 31 ∧
    (cfgBigCPU.convertToCStruct).max_cpu_time = -(2 ^ 31) := by
  refine ⟨by decide, by decide⟩

/-- C5 (amended): `convertToCStruct` widens `MaxMemory`, `MaxStack`
and `MaxOutputSize` to `C.long` value-preservingly for every config;
`MaxCPUTime`, `MaxRealTime` and `MaxProcessNumber` are truncated to
32-bit `C.int`, value-preserving exactly when the value fits in the
32-bit signed range — in particular the sentinel -1 always reaches
the engine unchanged in all six fields. -/
theorem convert_limits_preserved (c : Config)
    (h1 : int32Range c.MaxCPUTime) (h2 : int32Range c.MaxRealTime)
    (h3 : int32Range c.MaxProcessNumber) :
    (c.convertToCStruct).max_cpu_time = c.MaxCPUTime ∧
    (c.convertToCStruct).max_real_time = c.MaxRealTime ∧
    (c.convertToCStruct).max_memory = c.MaxMemory ∧
    (c.convertToCStruct).max_stack = c.MaxStack ∧
    (c.convertToCStruct).max_process_number = c.MaxProcessNumber ∧
    (c.convertToCStruct).max_output_size = c.MaxOutputSize :=
  ⟨wrap32_eq_of_int32Range _ h1, wrap32_eq_of_int32Range _ h2, rfl, rfl,
   wrap32_eq_of_int32Range _ h3, rfl⟩

/-- Witness for the amended C5 at the all-unlimited config: every
sentinel -1 reaches the C struct unchanged. -/
theorem convert_limits_preserved_witness :
    (cfgBase.convertToCStruct).max_cpu_time = -1 ∧
    (cfgBase.convertToCStruct).max_real_time = -1 ∧
    (cfgBase.convertToCStruct).max_memory = -1 ∧
    (cfgBase.convertToCStruct).max_stack = -1 ∧
    (cfgBase.convertToCStruct).max_process_number = -1 ∧
    (cfgBase.convertToCStruct).max_output_size = -1 :=
  convert_limits_preserved cfgBase (by decide) (by decide) (by decide)

/-- C6: every result `Run` returns reports the two axes together from
the same engine-filled C struct of the same call: the Outcome code
(field `Result`, 0..5) and the Fault code (field `Error`, one of
-11..0), each equal to its C counterpart and within its documented
range whenever the engine respects the documented code ranges. -/
theorem result_reports_both_axes (config : Config) (cr : CResult)
    (hres : 0 ≤ cr.result ∧ cr.result ≤ 5)
    (herr : -11 ≤ cr.error ∧ cr.error ≤ 0) :
    (Run config cr).res = cr.result ∧
    (Run config cr).Error = cr.error ∧
    0 ≤ (Run config cr).res ∧ (Run config cr).res ≤ 5 ∧
    -11 ≤ (Run config cr).Error ∧ (Run config cr).Error ≤ 0 :=
  ⟨rfl, rfl, hres.1, hres.2, herr.1, herr.2⟩

/-- Witness for C6 at a concrete result struct. -/
theorem result_reports_both_axes_witness :
    (Run cfgBase crSmall).res = crSmall.result ∧
    (Run cfgBase crSmall).Error = crSmall.error ∧
    0 ≤ (Run cfgBase crSmall).res ∧ (Run cfgBase crSmall).res ≤ 5 ∧
    -11 ≤ (Run cfgBase crSmall).Error ∧ (Run cfgBase crSmall).Error ≤ 0 :=
  result_reports_both_axes cfgBase crSmall (by decide) (by decide)

/-- C10: the memory, stack and output-size ceilings at the public
interface are 32-bit signed (`int32` in the Go struct), so no ceiling
above 2^31 - 1 bytes is expressible, and the `C.long` widening passes
the same bounded value to the engine. -/
theorem memory_ceilings_are_32_bit (c : Config) (h : c.WF) :
    c.MaxMemory ≤ 2 ^ 31 - 1 ∧ c.MaxStack ≤ 2 ^ 31 - 1 ∧
    c.MaxOutputSize ≤ 2 ^ 31 - 1 ∧
    (c.convertToCStruct).max_memory = c.MaxMemory ∧
    (c.convertToCStruct).max_stack = c.MaxStack ∧
    (c.convertToCStruct).max_output_size = c.MaxOutputSize := by
  obtain ⟨-, -, hm, hs, -, ho, -, -, -⟩ := h
  unfold int32Range at hm hs ho
  exact ⟨by omega, by omega, by omega, rfl, rfl, rfl⟩

/-- Witness for C10 at the all-unlimited config. -/
theorem memory_ceilings_are_32_bit_witness :
    cfgBase.MaxMemory ≤ 2 ^ 31 - 1 ∧ cfgBase.MaxStack ≤ 2 ^ 31 - 1 ∧
    cfgBase.MaxOutputSize ≤ 2 ^ 31 - 1 ∧
    (cfgBase.convertToCStruct).max_memory = cfgBase.MaxMemory ∧
    (cfgBase.convertToCStruct).max_stack = cfgBase.MaxStack ∧
    (cfgBase.convertToCStruct).max_output_size = cfgBase.MaxOutputSize :=
  memory_ceilings_are_32_bit cfgBase (by decide)

/-- C7: for every config with all numeric limits at the -1 sentinel and
a run that terminates with no signal, exit code 0 and no fault, the
result of `Run` (composed with the spec-modelled engine) has Outcome
`Result = 0` (Success) and Fault `Error = 0` (None). -/
theorem run_unlimited_exit0_success (ambig : Int → Bool) (c : Config) (t : Termination)
    (hcpu : c.MaxCPUTime = -1) (hreal : c.MaxRealTime = -1) (hmem : c.MaxMemory = -1)
    (hstack : c.MaxStack = -1) (hproc : c.MaxProcessNumber = -1)
    (hout : c.MaxOutputSize = -1) (hsig : t.signal = 0) (hexit : t.exitCode = 0)
    (hfault : t.fault = 0) :
    (RunWithEngine ambig c t).res = SUCCESS ∧ (RunWithEngine ambig c t).Error = 0 := by
  have hw : wrap32 (-1) = -1 := by decide
  refine ⟨?_, hfault⟩
  show classify ambig (c.convertToCStruct) t = SUCCESS
  unfold classify
  simp only [Config.convertToCStruct, hcpu, hreal, hmem, hfault, hsig, hexit, hw, UNLIMITED]
  simp

/-- Witness for C7 at the all-unlimited concrete config and a clean
termination. -/
theorem run_unlimited_exit0_success_witness :
    (RunWithEngine (fun _ => true) cfgBase tClean).res = SUCCESS ∧
    (RunWithEngine (fun _ => true) cfgBase tClean).Error = 0 :=
  run_unlimited_exit0_success (fun _ => true) cfgBase tClean
    rfl rfl rfl rfl rfl rfl rfl rfl rfl

/-- C8: when a faultless termination is by a signal that could be
explained by either the CPU-time or the memory enforcement (`ambig`)
and a CPU ceiling is configured, the spec-modelled classifier
attributes it to CPU time exactly when the measured CPU time is at or
beyond the ceiling, and to memory otherwise. -/
theorem classifier_tie_break (ambig : Int → Bool) (cc : CConfig) (t : Termination)
    (hfault : t.fault = 0) (hsig : t.signal ≠ 0) (hamb : ambig t.signal = true)
    (hconf : cc.max_cpu_time ≠ UNLIMITED) :
    (cc.max_cpu_time ≤ t.cpuTime → classify ambig cc t = CPU_TIME_LIMIT_EXCEEDED) ∧
    (t.cpuTime < cc.max_cpu_time → classify ambig cc t = MEMORY_LIMIT_EXCEEDED) := by
  unfold classify
  rw [if_neg (fun h => h hfault), if_pos ⟨hsig, hamb⟩]
  constructor
  · intro hle
    rw [if_pos ⟨hconf, hle⟩]
  · intro hlt
    rw [if_neg]
    rintro ⟨-, hle⟩
    omega

/-- Witness for C8: a signal-9 termination with CPU time 1500 at a
1000 ms ceiling is attributed to CPU time. -/
theorem classifier_tie_break_witness :
    classify (fun _ => true) cfgCPULimited.convertToCStruct tCPUKill
      = CPU_TIME_LIMIT_EXCEEDED :=
  (classifier_tie_break (fun _ => true) cfgCPULimited.convertToCStruct tCPUKill
    (by decide) (by decide) rfl (by decide)).1 (by decide)
